import Mathlib

/-!
Verification of the instruction-factory module `pyquil/gates.py`.

The module builds immutable instruction values (gates, measurement,
classical ops, four no-operand singletons) out of raw operand designators.
Operand designators are canonicalized by two external normalizers,
`unpack_qubit` and `unpack_classical_reg` (from `pyquil.quilatom`), and the
instruction record types (`Gate`, `Measurement`, `Wait`, `Reset`, `Nop`,
`Halt`, `ClassicalTrue`, ..., from `pyquil.quilbase`) are external as well;
both are modelled here from their documented contracts.  Failure of a
normalizer (Python exception `InvalidOperand`) is modelled by the `Except`
monad, so a constructor either returns an instruction value or propagates
the normalizer's error.

Angle parameters are opaque: the constructors never inspect, convert or
validate them, which we capture by making every definition polymorphic in
the angle type `α`.
-/

namespace PyquilGates

/-- Modelled from the spec: a raw operand designator, as handed to the
normalizers.  The spec describes two categories (qubit designators and
classical-register designators), each either a fixed integer index (which
may be out of range, e.g. negative) or a generic placeholder. -/
inductive Designator where
  | qubitIdx (n : Int)
  | qubitPlaceholder (id : Nat)
  | regIdx (n : Int)
  | regPlaceholder (id : Nat)
deriving DecidableEq, Repr

/-- A canonical qubit reference, the output of the qubit normalizer. -/
inductive QubitRef where
  | index (n : Nat)
  | placeholder (id : Nat)
deriving DecidableEq, Repr

/-- A canonical classical-register reference, the output of the register
normalizer. -/
inductive RegRef where
  | index (n : Nat)
  | placeholder (id : Nat)
deriving DecidableEq, Repr

/-- Modelled from the spec: the single error kind relevant to the module,
`InvalidOperand`, raised by the external normalizers when a designator
cannot be canonicalized. -/
inductive NormError where
  | InvalidOperand
deriving DecidableEq, Repr

/-- Modelled from the spec: the qubit-reference normalizer `unpack_qubit`
(defined in `pyquil.quilatom`, not part of this module): it accepts a raw
qubit designator — a non-negative integer index or a generic placeholder —
returns a canonical qubit reference, and fails with `InvalidOperand` on a
negative index or a designator of the wrong category. -/
def unpack_qubit : Designator → Except NormError QubitRef
  | .qubitIdx n => if n < 0 then .error .InvalidOperand else .ok (.index n.toNat)
  | .qubitPlaceholder id => .ok (.placeholder id)
  | _ => .error .InvalidOperand

/-- Modelled from the spec: the classical-register-reference normalizer
`unpack_classical_reg` (defined in `pyquil.quilatom`, not part of this
module), with the same contract as `unpack_qubit` but for the
classical-register category. -/
def unpack_classical_reg : Designator → Except NormError RegRef
  | .regIdx n => if n < 0 then .error .InvalidOperand else .ok (.index n.toNat)
  | .regPlaceholder id => .ok (.placeholder id)
  | _ => .error .InvalidOperand

/-- A gate record: mnemonic name, parameter sequence (opaque angle values of
type `α`), ordered qubit operand sequence. -/
structure Gate (α : Type) where
  name : String
  params : List α
  qubits : List QubitRef
deriving DecidableEq, Repr

/-- The instruction variants produced by the module (record types from
`pyquil.quilbase`, modelled from the spec's data model). -/
inductive Instruction (α : Type) where
  | gate (g : Gate α)
  | measurement (qubit : QubitRef) (address : Option RegRef)
  | wait
  | reset
  | nop
  | halt
  | classicalTrue (register : RegRef)
  | classicalFalse (register : RegRef)
  | classicalNot (register : RegRef)
  | classicalAnd (left right : RegRef)
  | classicalOr (left right : RegRef)
  | classicalMove (left right : RegRef)
  | classicalExchange (left right : RegRef)
deriving DecidableEq, Repr

variable {α : Type}

/-- `I(qubit)`: the single-qubit identity gate. -/
def I (qubit : Designator) : Except NormError (Instruction α) := do
  let q ← unpack_qubit qubit
  return .gate ⟨"I", [], [q]⟩

/-- `X(qubit)`: the single-qubit X gate. -/
def X (qubit : Designator) : Except NormError (Instruction α) := do
  let q ← unpack_qubit qubit
  return .gate ⟨"X", [], [q]⟩

/-- `Y(qubit)`: the single-qubit Y gate. -/
def Y (qubit : Designator) : Except NormError (Instruction α) := do
  let q ← unpack_qubit qubit
  return .gate ⟨"Y", [], [q]⟩

/-- `Z(qubit)`: the single-qubit Z gate. -/
def Z (qubit : Designator) : Except NormError (Instruction α) := do
  let q ← unpack_qubit qubit
  return .gate ⟨"Z", [], [q]⟩

/-- `H(qubit)`: the single-qubit Hadamard gate. -/
def H (qubit : Designator) : Except NormError (Instruction α) := do
  let q ← unpack_qubit qubit
  return .gate ⟨"H", [], [q]⟩

/-- `S(qubit)`: the single-qubit S gate. -/
def S (qubit : Designator) : Except NormError (Instruction α) := do
  let q ← unpack_qubit qubit
  return .gate ⟨"S", [], [q]⟩

/-- `T(qubit)`: the single-qubit T gate. -/
def T (qubit : Designator) : Except NormError (Instruction α) := do
  let q ← unpack_qubit qubit
  return .gate ⟨"T", [], [q]⟩

/-- `RX(angle, qubit)`: single-qubit X rotation by `angle`. -/
def RX (angle : α) (qubit : Designator) : Except NormError (Instruction α) := do
  let q ← unpack_qubit qubit
  return .gate ⟨"RX", [angle], [q]⟩

/-- `RY(angle, qubit)`: single-qubit Y rotation by `angle`. -/
def RY (angle : α) (qubit : Designator) : Except NormError (Instruction α) := do
  let q ← unpack_qubit qubit
  return .gate ⟨"RY", [angle], [q]⟩

/-- `RZ(angle, qubit)`: single-qubit Z rotation by `angle`. -/
def RZ (angle : α) (qubit : Designator) : Except NormError (Instruction α) := do
  let q ← unpack_qubit qubit
  return .gate ⟨"RZ", [angle], [q]⟩

/-- `PHASE(angle, qubit)`: single-qubit phase gate. -/
def PHASE (angle : α) (qubit : Designator) : Except NormError (Instruction α) := do
  let q ← unpack_qubit qubit
  return .gate ⟨"PHASE", [angle], [q]⟩

/-- `CZ(control, target)`: controlled-Z gate. -/
def CZ (control target : Designator) : Except NormError (Instruction α) := do
  let q1 ← unpack_qubit control
  let q2 ← unpack_qubit target
  return .gate ⟨"CZ", [], [q1, q2]⟩

/-- `CNOT(control, target)`: controlled-not gate. -/
def CNOT (control target : Designator) : Except NormError (Instruction α) := do
  let q1 ← unpack_qubit control
  let q2 ← unpack_qubit target
  return .gate ⟨"CNOT", [], [q1, q2]⟩

/-- `CCNOT(control1, control2, target)`: controlled-controlled-not gate. -/
def CCNOT (control1 control2 target : Designator) :
    Except NormError (Instruction α) := do
  let q1 ← unpack_qubit control1
  let q2 ← unpack_qubit control2
  let q3 ← unpack_qubit target
  return .gate ⟨"CCNOT", [], [q1, q2, q3]⟩

/-- `CPHASE00(angle, control, target)`: controlled phase on state 00. -/
def CPHASE00 (angle : α) (control target : Designator) :
    Except NormError (Instruction α) := do
  let q1 ← unpack_qubit control
  let q2 ← unpack_qubit target
  return .gate ⟨"CPHASE00", [angle], [q1, q2]⟩

/-- `CPHASE01(angle, control, target)`: controlled phase on state 01. -/
def CPHASE01 (angle : α) (control target : Designator) :
    Except NormError (Instruction α) := do
  let q1 ← unpack_qubit control
  let q2 ← unpack_qubit target
  return .gate ⟨"CPHASE01", [angle], [q1, q2]⟩

/-- `CPHASE10(angle, control, target)`: controlled phase on state 10. -/
def CPHASE10 (angle : α) (control target : Designator) :
    Except NormError (Instruction α) := do
  let q1 ← unpack_qubit control
  let q2 ← unpack_qubit target
  return .gate ⟨"CPHASE10", [angle], [q1, q2]⟩

/-- `CPHASE(angle, control, target)`: controlled phase on state 11. -/
def CPHASE (angle : α) (control target : Designator) :
    Except NormError (Instruction α) := do
  let q1 ← unpack_qubit control
  let q2 ← unpack_qubit target
  return .gate ⟨"CPHASE", [angle], [q1, q2]⟩

/-- `SWAP(q1, q2)`: swap gate. -/
def SWAP (q1 q2 : Designator) : Except NormError (Instruction α) := do
  let a ← unpack_qubit q1
  let b ← unpack_qubit q2
  return .gate ⟨"SWAP", [], [a, b]⟩

/-- `CSWAP(control, target_1, target_2)`: controlled swap gate. -/
def CSWAP (control target_1 target_2 : Designator) :
    Except NormError (Instruction α) := do
  let q1 ← unpack_qubit control
  let q2 ← unpack_qubit target_1
  let q3 ← unpack_qubit target_2
  return .gate ⟨"CSWAP", [], [q1, q2, q3]⟩

/-- `ISWAP(q1, q2)`: i-swap gate. -/
def ISWAP (q1 q2 : Designator) : Except NormError (Instruction α) := do
  let a ← unpack_qubit q1
  let b ← unpack_qubit q2
  return .gate ⟨"ISWAP", [], [a, b]⟩

/-- `PSWAP(angle, q1, q2)`: parameterized swap gate. -/
def PSWAP (angle : α) (q1 q2 : Designator) : Except NormError (Instruction α) := do
  let a ← unpack_qubit q1
  let b ← unpack_qubit q2
  return .gate ⟨"PSWAP", [angle], [a, b]⟩

/-- The `WAIT` singleton instruction constant. -/
def WAIT : Instruction α := .wait

/-- The `RESET` singleton instruction constant. -/
def RESET : Instruction α := .reset

/-- The `NOP` singleton instruction constant. -/
def NOP : Instruction α := .nop

/-- The `HALT` singleton instruction constant. -/
def HALT : Instruction α := .halt

/-- `MEASURE(qubit, classical_reg=None)`: normalizes the qubit always, and
the classical register only when one is supplied. -/
def MEASURE (qubit : Designator) (classical_reg : Option Designator) :
    Except NormError (Instruction α) := do
  let q ← unpack_qubit qubit
  match classical_reg with
  | none => return .measurement q none
  | some r => do
      let address ← unpack_classical_reg r
      return .measurement q (some address)

/-- `TRUE(classical_reg)`: set a classical register to 1. -/
def TRUE (classical_reg : Designator) : Except NormError (Instruction α) := do
  let r ← unpack_classical_reg classical_reg
  return .classicalTrue r

/-- `FALSE(classical_reg)`: set a classical register to 0. -/
def FALSE (classical_reg : Designator) : Except NormError (Instruction α) := do
  let r ← unpack_classical_reg classical_reg
  return .classicalFalse r

/-- `NOT(classical_reg)`: negate a classical register in place. -/
def NOT (classical_reg : Designator) : Except NormError (Instruction α) := do
  let r ← unpack_classical_reg classical_reg
  return .classicalNot r

/-- `AND(classical_reg1, classical_reg2)`. -/
def AND (classical_reg1 classical_reg2 : Designator) :
    Except NormError (Instruction α) := do
  let left ← unpack_classical_reg classical_reg1
  let right ← unpack_classical_reg classical_reg2
  return .classicalAnd left right

/-- `OR(classical_reg1, classical_reg2)`. -/
def OR (classical_reg1 classical_reg2 : Designator) :
    Except NormError (Instruction α) := do
  let left ← unpack_classical_reg classical_reg1
  let right ← unpack_classical_reg classical_reg2
  return .classicalOr left right

/-- `MOVE(classical_reg1, classical_reg2)`. -/
def MOVE (classical_reg1 classical_reg2 : Designator) :
    Except NormError (Instruction α) := do
  let left ← unpack_classical_reg classical_reg1
  let right ← unpack_classical_reg classical_reg2
  return .classicalMove left right

/-- `EXCHANGE(classical_reg1, classical_reg2)`. -/
def EXCHANGE (classical_reg1 classical_reg2 : Designator) :
    Except NormError (Instruction α) := do
  let left ← unpack_classical_reg classical_reg1
  let right ← unpack_classical_reg classical_reg2
  return .classicalExchange left right

/-- A gate-constructor entry of the registry, tagged by its argument shape
(1, 2 or 3 qubit operands, with or without a leading angle parameter). -/
inductive GateConstructor (α : Type) where
  | one (f : Designator → Except NormError (Instruction α))
  | two (f : Designator → Designator → Except NormError (Instruction α))
  | three (f : Designator → Designator → Designator → Except NormError (Instruction α))
  | oneParam (f : α → Designator → Except NormError (Instruction α))
  | twoParam (f : α → Designator → Designator → Except NormError (Instruction α))

/-- The `STANDARD_GATES` registry: a name-indexed dispatch table associating
each gate mnemonic with its constructor function, in the order of the
source's dictionary literal. -/
def STANDARD_GATES : List (String × GateConstructor α) :=
  [("I", .one I),
   ("X", .one X),
   ("Y", .one Y),
   ("Z", .one Z),
   ("H", .one H),
   ("S", .one S),
   ("T", .one T),
   ("PHASE", .oneParam PHASE),
   ("RX", .oneParam RX),
   ("RY", .oneParam RY),
   ("RZ", .oneParam RZ),
   ("CZ", .two CZ),
   ("CNOT", .two CNOT),
   ("CCNOT", .three CCNOT),
   ("CPHASE00", .twoParam CPHASE00),
   ("CPHASE01", .twoParam CPHASE01),
   ("CPHASE10", .twoParam CPHASE10),
   ("CPHASE", .twoParam CPHASE),
   ("SWAP", .two SWAP),
   ("CSWAP", .three CSWAP),
   ("ISWAP", .two ISWAP),
   ("PSWAP", .twoParam PSWAP)]

/-- The 22 gate mnemonics of the fixed catalog, in the catalog's order. -/
def catalogNames : List String :=
  ["I", "X", "Y", "Z", "H", "S", "T", "RX", "RY", "RZ", "PHASE",
   "CZ", "CNOT", "CCNOT", "CPHASE00", "CPHASE01", "CPHASE10", "CPHASE",
   "SWAP", "CSWAP", "ISWAP", "PSWAP"]

/-! ### Generic reduction lemmas for sequenced normalizer calls -/

theorem bind1_ok {β γ : Type} {u1 : Except NormError β} {g : β → γ} {x : β}
    (h : u1 = .ok x) :
    (do let a ← u1; return g a) = Except.ok (g x) := by
  rw [h]; rfl

theorem bind2_ok {β1 β2 γ : Type} {u1 : Except NormError β1}
    {u2 : Except NormError β2} {g : β1 → β2 → γ} {x : β1} {y : β2}
    (h1 : u1 = .ok x) (h2 : u2 = .ok y) :
    (do let a ← u1; let b ← u2; return g a b) = Except.ok (g x y) := by
  rw [h1, h2]; rfl

theorem bind3_ok {β1 β2 β3 γ : Type} {u1 : Except NormError β1}
    {u2 : Except NormError β2} {u3 : Except NormError β3}
    {g : β1 → β2 → β3 → γ} {x : β1} {y : β2} {z : β3}
    (h1 : u1 = .ok x) (h2 : u2 = .ok y) (h3 : u3 = .ok z) :
    (do let a ← u1; let b ← u2; let c ← u3; return g a b c) =
      Except.ok (g x y z) := by
  rw [h1, h2, h3]; rfl

/-- The result is a successfully built gate with the given mnemonic, qubit
count and parameter count. -/
def gateShape (e : Except NormError (Instruction α)) (nm : String)
    (nq np : Nat) : Prop :=
  ∃ g, e = .ok (.gate g) ∧ g.name = nm ∧ g.qubits.length = nq ∧
    g.params.length = np

/-- C1: every constructor of the fixed catalog, applied to operands the
qubit normalizer accepts, returns a `Gate` whose `name` is the mnemonic
string, whose `qubits` length is the catalogued qubit-arity and whose
`params` length is the catalogued parameter-arity. -/
theorem gate_catalog_shapes {α : Type} (v : α) (q1 q2 q3 : Designator)
    (r1 r2 r3 : QubitRef)
    (h1 : unpack_qubit q1 = .ok r1) (h2 : unpack_qubit q2 = .ok r2)
    (h3 : unpack_qubit q3 = .ok r3) :
    gateShape (I (α := α) q1) "I" 1 0 ∧
    gateShape (X (α := α) q1) "X" 1 0 ∧
    gateShape (Y (α := α) q1) "Y" 1 0 ∧
    gateShape (Z (α := α) q1) "Z" 1 0 ∧
    gateShape (H (α := α) q1) "H" 1 0 ∧
    gateShape (S (α := α) q1) "S" 1 0 ∧
    gateShape (T (α := α) q1) "T" 1 0 ∧
    gateShape (RX v q1) "RX" 1 1 ∧
    gateShape (RY v q1) "RY" 1 1 ∧
    gateShape (RZ v q1) "RZ" 1 1 ∧
    gateShape (PHASE v q1) "PHASE" 1 1 ∧
    gateShape (CZ (α := α) q1 q2) "CZ" 2 0 ∧
    gateShape (CNOT (α := α) q1 q2) "CNOT" 2 0 ∧
    gateShape (CCNOT (α := α) q1 q2 q3) "CCNOT" 3 0 ∧
    gateShape (CPHASE00 v q1 q2) "CPHASE00" 2 1 ∧
    gateShape (CPHASE01 v q1 q2) "CPHASE01" 2 1 ∧
    gateShape (CPHASE10 v q1 q2) "CPHASE10" 2 1 ∧
    gateShape (CPHASE v q1 q2) "CPHASE" 2 1 ∧
    gateShape (SWAP (α := α) q1 q2) "SWAP" 2 0 ∧
    gateShape (CSWAP (α := α) q1 q2 q3) "CSWAP" 3 0 ∧
    gateShape (ISWAP (α := α) q1 q2) "ISWAP" 2 0 ∧
    gateShape (PSWAP v q1 q2) "PSWAP" 2 1 := by
  refine ⟨
    ⟨⟨"I", [], [r1]⟩, by unfold I; exact bind1_ok h1, rfl, rfl, rfl⟩,
    ⟨⟨"X", [], [r1]⟩, by unfold X; exact bind1_ok h1, rfl, rfl, rfl⟩,
    ⟨⟨"Y", [], [r1]⟩, by unfold Y; exact bind1_ok h1, rfl, rfl, rfl⟩,
    ⟨⟨"Z", [], [r1]⟩, by unfold Z; exact bind1_ok h1, rfl, rfl, rfl⟩,
    ⟨⟨"H", [], [r1]⟩, by unfold H; exact bind1_ok h1, rfl, rfl, rfl⟩,
    ⟨⟨"S", [], [r1]⟩, by unfold S; exact bind1_ok h1, rfl, rfl, rfl⟩,
    ⟨⟨"T", [], [r1]⟩, by unfold T; exact bind1_ok h1, rfl, rfl, rfl⟩,
    ⟨⟨"RX", [v], [r1]⟩, by unfold RX; exact bind1_ok h1, rfl, rfl, rfl⟩,
    ⟨⟨"RY", [v], [r1]⟩, by unfold RY; exact bind1_ok h1, rfl, rfl, rfl⟩,
    ⟨⟨"RZ", [v], [r1]⟩, by unfold RZ; exact bind1_ok h1, rfl, rfl, rfl⟩,
    ⟨⟨"PHASE", [v], [r1]⟩, by unfold PHASE; exact bind1_ok h1, rfl, rfl, rfl⟩,
    ⟨⟨"CZ", [], [r1, r2]⟩, by unfold CZ; exact bind2_ok h1 h2, rfl, rfl, rfl⟩,
    ⟨⟨"CNOT", [], [r1, r2]⟩, by unfold CNOT; exact bind2_ok h1 h2, rfl, rfl, rfl⟩,
    ⟨⟨"CCNOT", [], [r1, r2, r3]⟩, by unfold CCNOT; exact bind3_ok h1 h2 h3, rfl, rfl, rfl⟩,
    ⟨⟨"CPHASE00", [v], [r1, r2]⟩, by unfold CPHASE00; exact bind2_ok h1 h2, rfl, rfl, rfl⟩,
    ⟨⟨"CPHASE01", [v], [r1, r2]⟩, by unfold CPHASE01; exact bind2_ok h1 h2, rfl, rfl, rfl⟩,
    ⟨⟨"CPHASE10", [v], [r1, r2]⟩, by unfold CPHASE10; exact bind2_ok h1 h2, rfl, rfl, rfl⟩,
    ⟨⟨"CPHASE", [v], [r1, r2]⟩, by unfold CPHASE; exact bind2_ok h1 h2, rfl, rfl, rfl⟩,
    ⟨⟨"SWAP", [], [r1, r2]⟩, by unfold SWAP; exact bind2_ok h1 h2, rfl, rfl, rfl⟩,
    ⟨⟨"CSWAP", [], [r1, r2, r3]⟩, by unfold CSWAP; exact bind3_ok h1 h2 h3, rfl, rfl, rfl⟩,
    ⟨⟨"ISWAP", [], [r1, r2]⟩, by unfold ISWAP; exact bind2_ok h1 h2, rfl, rfl, rfl⟩,
    ⟨⟨"PSWAP", [v], [r1, r2]⟩, by unfold PSWAP; exact bind2_ok h1 h2, rfl, rfl, rfl⟩⟩

/-- Witness for C1 at the concrete qubit indices 0, 1, 2. -/
theorem gate_catalog_shapes_witness :
    gateShape (I (α := Unit) (.qubitIdx 0)) "I" 1 0 ∧
    gateShape (X (α := Unit) (.qubitIdx 0)) "X" 1 0 ∧
    gateShape (Y (α := Unit) (.qubitIdx 0)) "Y" 1 0 ∧
    gateShape (Z (α := Unit) (.qubitIdx 0)) "Z" 1 0 ∧
    gateShape (H (α := Unit) (.qubitIdx 0)) "H" 1 0 ∧
    gateShape (S (α := Unit) (.qubitIdx 0)) "S" 1 0 ∧
    gateShape (T (α := Unit) (.qubitIdx 0)) "T" 1 0 ∧
    gateShape (RX () (.qubitIdx 0)) "RX" 1 1 ∧
    gateShape (RY () (.qubitIdx 0)) "RY" 1 1 ∧
    gateShape (RZ () (.qubitIdx 0)) "RZ" 1 1 ∧
    gateShape (PHASE () (.qubitIdx 0)) "PHASE" 1 1 ∧
    gateShape (CZ (α := Unit) (.qubitIdx 0) (.qubitIdx 1)) "CZ" 2 0 ∧
    gateShape (CNOT (α := Unit) (.qubitIdx 0) (.qubitIdx 1)) "CNOT" 2 0 ∧
    gateShape (CCNOT (α := Unit) (.qubitIdx 0) (.qubitIdx 1) (.qubitIdx 2))
      "CCNOT" 3 0 ∧
    gateShape (CPHASE00 () (.qubitIdx 0) (.qubitIdx 1)) "CPHASE00" 2 1 ∧
    gateShape (CPHASE01 () (.qubitIdx 0) (.qubitIdx 1)) "CPHASE01" 2 1 ∧
    gateShape (CPHASE10 () (.qubitIdx 0) (.qubitIdx 1)) "CPHASE10" 2 1 ∧
    gateShape (CPHASE () (.qubitIdx 0) (.qubitIdx 1)) "CPHASE" 2 1 ∧
    gateShape (SWAP (α := Unit) (.qubitIdx 0) (.qubitIdx 1)) "SWAP" 2 0 ∧
    gateShape (CSWAP (α := Unit) (.qubitIdx 0) (.qubitIdx 1) (.qubitIdx 2))
      "CSWAP" 3 0 ∧
    gateShape (ISWAP (α := Unit) (.qubitIdx 0) (.qubitIdx 1)) "ISWAP" 2 0 ∧
    gateShape (PSWAP () (.qubitIdx 0) (.qubitIdx 1)) "PSWAP" 2 1 :=
  gate_catalog_shapes () (.qubitIdx 0) (.qubitIdx 1) (.qubitIdx 2)
    (.index 0) (.index 1) (.index 2) rfl rfl rfl

/-- C2: the registry's key list is exactly the dictionary literal's key
order, it is a permutation of the 22 catalog mnemonics, and the value stored
under each mnemonic is the like-named top-level constructor function itself
— hence applying the stored function to any argument tuple gives the very
same result as calling the constructor directly. -/
theorem standard_gates_registry (α : Type) :
    ((STANDARD_GATES (α := α)).map Prod.fst =
      ["I", "X", "Y", "Z", "H", "S", "T", "PHASE", "RX", "RY", "RZ",
       "CZ", "CNOT", "CCNOT", "CPHASE00", "CPHASE01", "CPHASE10", "CPHASE",
       "SWAP", "CSWAP", "ISWAP", "PSWAP"]) ∧
    ((STANDARD_GATES (α := α)).map Prod.fst).Perm catalogNames ∧
    (STANDARD_GATES (α := α)).lookup "I" = some (.one I) ∧
    (STANDARD_GATES (α := α)).lookup "X" = some (.one X) ∧
    (STANDARD_GATES (α := α)).lookup "Y" = some (.one Y) ∧
    (STANDARD_GATES (α := α)).lookup "Z" = some (.one Z) ∧
    (STANDARD_GATES (α := α)).lookup "H" = some (.one H) ∧
    (STANDARD_GATES (α := α)).lookup "S" = some (.one S) ∧
    (STANDARD_GATES (α := α)).lookup "T" = some (.one T) ∧
    (STANDARD_GATES (α := α)).lookup "PHASE" = some (.oneParam PHASE) ∧
    (STANDARD_GATES (α := α)).lookup "RX" = some (.oneParam RX) ∧
    (STANDARD_GATES (α := α)).lookup "RY" = some (.oneParam RY) ∧
    (STANDARD_GATES (α := α)).lookup "RZ" = some (.oneParam RZ) ∧
    (STANDARD_GATES (α := α)).lookup "CZ" = some (.two CZ) ∧
    (STANDARD_GATES (α := α)).lookup "CNOT" = some (.two CNOT) ∧
    (STANDARD_GATES (α := α)).lookup "CCNOT" = some (.three CCNOT) ∧
    (STANDARD_GATES (α := α)).lookup "CPHASE00" = some (.twoParam CPHASE00) ∧
    (STANDARD_GATES (α := α)).lookup "CPHASE01" = some (.twoParam CPHASE01) ∧
    (STANDARD_GATES (α := α)).lookup "CPHASE10" = some (.twoParam CPHASE10) ∧
    (STANDARD_GATES (α := α)).lookup "CPHASE" = some (.twoParam CPHASE) ∧
    (STANDARD_GATES (α := α)).lookup "SWAP" = some (.two SWAP) ∧
    (STANDARD_GATES (α := α)).lookup "CSWAP" = some (.three CSWAP) ∧
    (STANDARD_GATES (α := α)).lookup "ISWAP" = some (.two ISWAP) ∧
    (STANDARD_GATES (α := α)).lookup "PSWAP" = some (.twoParam PSWAP) := by
  refine ⟨rfl, ?_, rfl, rfl, rfl, rfl, rfl, rfl, rfl, rfl, rfl, rfl,
    rfl, rfl, rfl, rfl, rfl, rfl, rfl, rfl, rfl, rfl, rfl, rfl⟩
  show (["I", "X", "Y", "Z", "H", "S", "T", "PHASE", "RX", "RY", "RZ",
    "CZ", "CNOT", "CCNOT", "CPHASE00", "CPHASE01", "CPHASE10", "CPHASE",
    "SWAP", "CSWAP", "ISWAP", "PSWAP"] : List String).Perm catalogNames
  decide

/-- C3: `MEASURE` with the register absent yields a `Measurement` whose
address is absent; with a register present it yields one whose address is
the register normalizer's result on it; in both cases the qubit field is the
qubit normalizer's result. -/
theorem measure_address {α : Type} (q r : Designator) (qr : QubitRef)
    (rr : RegRef) (hq : unpack_qubit q = .ok qr)
    (hr : unpack_classical_reg r = .ok rr) :
    MEASURE (α := α) q none = .ok (.measurement qr none) ∧
    MEASURE (α := α) q (some r) = .ok (.measurement qr (some rr)) := by
  constructor
  · unfold MEASURE; exact bind1_ok hq
  · unfold MEASURE; exact bind2_ok hq hr

/-- Witness for C3 at qubit index 0 and register index 1. -/
theorem measure_address_witness :
    MEASURE (α := Unit) (.qubitIdx 0) none =
      .ok (.measurement (.index 0) none) ∧
    MEASURE (α := Unit) (.qubitIdx 0) (some (.regIdx 1)) =
      .ok (.measurement (.index 0) (some (.index 1))) :=
  measure_address (.qubitIdx 0) (.regIdx 1) (.index 0) (.index 1) rfl rfl

/-- C4: every multi-operand constructor preserves argument order: the
normalized operands occupy the instruction's operand positions in the order
the arguments were given. -/
theorem operand_order {α : Type} (v : α) (q1 q2 q3 a b : Designator)
    (r1 r2 r3 : QubitRef) (ra rb : RegRef)
    (h1 : unpack_qubit q1 = .ok r1) (h2 : unpack_qubit q2 = .ok r2)
    (h3 : unpack_qubit q3 = .ok r3)
    (ha : unpack_classical_reg a = .ok ra)
    (hb : unpack_classical_reg b = .ok rb) :
    CZ (α := α) q1 q2 = .ok (.gate ⟨"CZ", [], [r1, r2]⟩) ∧
    CNOT (α := α) q1 q2 = .ok (.gate ⟨"CNOT", [], [r1, r2]⟩) ∧
    CCNOT (α := α) q1 q2 q3 = .ok (.gate ⟨"CCNOT", [], [r1, r2, r3]⟩) ∧
    CPHASE00 v q1 q2 = .ok (.gate ⟨"CPHASE00", [v], [r1, r2]⟩) ∧
    CPHASE01 v q1 q2 = .ok (.gate ⟨"CPHASE01", [v], [r1, r2]⟩) ∧
    CPHASE10 v q1 q2 = .ok (.gate ⟨"CPHASE10", [v], [r1, r2]⟩) ∧
    CPHASE v q1 q2 = .ok (.gate ⟨"CPHASE", [v], [r1, r2]⟩) ∧
    SWAP (α := α) q1 q2 = .ok (.gate ⟨"SWAP", [], [r1, r2]⟩) ∧
    CSWAP (α := α) q1 q2 q3 = .ok (.gate ⟨"CSWAP", [], [r1, r2, r3]⟩) ∧
    ISWAP (α := α) q1 q2 = .ok (.gate ⟨"ISWAP", [], [r1, r2]⟩) ∧
    PSWAP v q1 q2 = .ok (.gate ⟨"PSWAP", [v], [r1, r2]⟩) ∧
    AND (α := α) a b = .ok (.classicalAnd ra rb) ∧
    OR (α := α) a b = .ok (.classicalOr ra rb) ∧
    MOVE (α := α) a b = .ok (.classicalMove ra rb) ∧
    EXCHANGE (α := α) a b = .ok (.classicalExchange ra rb) :=
  ⟨by unfold CZ; exact bind2_ok h1 h2,
   by unfold CNOT; exact bind2_ok h1 h2,
   by unfold CCNOT; exact bind3_ok h1 h2 h3,
   by unfold CPHASE00; exact bind2_ok h1 h2,
   by unfold CPHASE01; exact bind2_ok h1 h2,
   by unfold CPHASE10; exact bind2_ok h1 h2,
   by unfold CPHASE; exact bind2_ok h1 h2,
   by unfold SWAP; exact bind2_ok h1 h2,
   by unfold CSWAP; exact bind3_ok h1 h2 h3,
   by unfold ISWAP; exact bind2_ok h1 h2,
   by unfold PSWAP; exact bind2_ok h1 h2,
   by unfold AND; exact bind2_ok ha hb,
   by unfold OR; exact bind2_ok ha hb,
   by unfold MOVE; exact bind2_ok ha hb,
   by unfold EXCHANGE; exact bind2_ok ha hb⟩

/-- Witness for C4 at qubit indices 0, 1, 2, register indices 3, 4 and the
angle value 7. -/
theorem operand_order_witness :
    CZ (α := Int) (.qubitIdx 0) (.qubitIdx 1) =
      .ok (.gate ⟨"CZ", [], [.index 0, .index 1]⟩) ∧
    CNOT (α := Int) (.qubitIdx 0) (.qubitIdx 1) =
      .ok (.gate ⟨"CNOT", [], [.index 0, .index 1]⟩) ∧
    CCNOT (α := Int) (.qubitIdx 0) (.qubitIdx 1) (.qubitIdx 2) =
      .ok (.gate ⟨"CCNOT", [], [.index 0, .index 1, .index 2]⟩) ∧
    CPHASE00 (7 : Int) (.qubitIdx 0) (.qubitIdx 1) =
      .ok (.gate ⟨"CPHASE00", [7], [.index 0, .index 1]⟩) ∧
    CPHASE01 (7 : Int) (.qubitIdx 0) (.qubitIdx 1) =
      .ok (.gate ⟨"CPHASE01", [7], [.index 0, .index 1]⟩) ∧
    CPHASE10 (7 : Int) (.qubitIdx 0) (.qubitIdx 1) =
      .ok (.gate ⟨"CPHASE10", [7], [.index 0, .index 1]⟩) ∧
    CPHASE (7 : Int) (.qubitIdx 0) (.qubitIdx 1) =
      .ok (.gate ⟨"CPHASE", [7], [.index 0, .index 1]⟩) ∧
    SWAP (α := Int) (.qubitIdx 0) (.qubitIdx 1) =
      .ok (.gate ⟨"SWAP", [], [.index 0, .index 1]⟩) ∧
    CSWAP (α := Int) (.qubitIdx 0) (.qubitIdx 1) (.qubitIdx 2) =
      .ok (.gate ⟨"CSWAP", [], [.index 0, .index 1, .index 2]⟩) ∧
    ISWAP (α := Int) (.qubitIdx 0) (.qubitIdx 1) =
      .ok (.gate ⟨"ISWAP", [], [.index 0, .index 1]⟩) ∧
    PSWAP (7 : Int) (.qubitIdx 0) (.qubitIdx 1) =
      .ok (.gate ⟨"PSWAP", [7], [.index 0, .index 1]⟩) ∧
    AND (α := Int) (.regIdx 3) (.regIdx 4) =
      .ok (.classicalAnd (.index 3) (.index 4)) ∧
    OR (α := Int) (.regIdx 3) (.regIdx 4) =
      .ok (.classicalOr (.index 3) (.index 4)) ∧
    MOVE (α := Int) (.regIdx 3) (.regIdx 4) =
      .ok (.classicalMove (.index 3) (.index 4)) ∧
    EXCHANGE (α := Int) (.regIdx 3) (.regIdx 4) =
      .ok (.classicalExchange (.index 3) (.index 4)) :=
  operand_order (7 : Int) (.qubitIdx 0) (.qubitIdx 1) (.qubitIdx 2)
    (.regIdx 3) (.regIdx 4) (.index 0) (.index 1) (.index 2)
    (.index 3) (.index 4) rfl rfl rfl rfl rfl

/-- C5: every parameterized gate constructor packs the angle argument
unchanged into a one-element parameter sequence.  The statement is
polymorphic in the angle type `α`, so it holds for any value whatsoever,
numeric or symbolic: no conversion, range check or validation can occur. -/
theorem params_packed_unchanged {α : Type} (v : α) (q1 q2 : Designator)
    (r1 r2 : QubitRef)
    (h1 : unpack_qubit q1 = .ok r1) (h2 : unpack_qubit q2 = .ok r2) :
    RX v q1 = .ok (.gate ⟨"RX", [v], [r1]⟩) ∧
    RY v q1 = .ok (.gate ⟨"RY", [v], [r1]⟩) ∧
    RZ v q1 = .ok (.gate ⟨"RZ", [v], [r1]⟩) ∧
    PHASE v q1 = .ok (.gate ⟨"PHASE", [v], [r1]⟩) ∧
    CPHASE00 v q1 q2 = .ok (.gate ⟨"CPHASE00", [v], [r1, r2]⟩) ∧
    CPHASE01 v q1 q2 = .ok (.gate ⟨"CPHASE01", [v], [r1, r2]⟩) ∧
    CPHASE10 v q1 q2 = .ok (.gate ⟨"CPHASE10", [v], [r1, r2]⟩) ∧
    CPHASE v q1 q2 = .ok (.gate ⟨"CPHASE", [v], [r1, r2]⟩) ∧
    PSWAP v q1 q2 = .ok (.gate ⟨"PSWAP", [v], [r1, r2]⟩) :=
  ⟨by unfold RX; exact bind1_ok h1,
   by unfold RY; exact bind1_ok h1,
   by unfold RZ; exact bind1_ok h1,
   by unfold PHASE; exact bind1_ok h1,
   by unfold CPHASE00; exact bind2_ok h1 h2,
   by unfold CPHASE01; exact bind2_ok h1 h2,
   by unfold CPHASE10; exact bind2_ok h1 h2,
   by unfold CPHASE; exact bind2_ok h1 h2,
   by unfold PSWAP; exact bind2_ok h1 h2⟩

/-- Witness for C5 at the angle value -9 and qubit indices 0, 1. -/
theorem params_packed_unchanged_witness :
    RX (-9 : Int) (.qubitIdx 0) = .ok (.gate ⟨"RX", [-9], [.index 0]⟩) ∧
    RY (-9 : Int) (.qubitIdx 0) = .ok (.gate ⟨"RY", [-9], [.index 0]⟩) ∧
    RZ (-9 : Int) (.qubitIdx 0) = .ok (.gate ⟨"RZ", [-9], [.index 0]⟩) ∧
    PHASE (-9 : Int) (.qubitIdx 0) =
      .ok (.gate ⟨"PHASE", [-9], [.index 0]⟩) ∧
    CPHASE00 (-9 : Int) (.qubitIdx 0) (.qubitIdx 1) =
      .ok (.gate ⟨"CPHASE00", [-9], [.index 0, .index 1]⟩) ∧
    CPHASE01 (-9 : Int) (.qubitIdx 0) (.qubitIdx 1) =
      .ok (.gate ⟨"CPHASE01", [-9], [.index 0, .index 1]⟩) ∧
    CPHASE10 (-9 : Int) (.qubitIdx 0) (.qubitIdx 1) =
      .ok (.gate ⟨"CPHASE10", [-9], [.index 0, .index 1]⟩) ∧
    CPHASE (-9 : Int) (.qubitIdx 0) (.qubitIdx 1) =
      .ok (.gate ⟨"CPHASE", [-9], [.index 0, .index 1]⟩) ∧
    PSWAP (-9 : Int) (.qubitIdx 0) (.qubitIdx 1) =
      .ok (.gate ⟨"PSWAP", [-9], [.index 0, .index 1]⟩) :=
  params_packed_unchanged (-9 : Int) (.qubitIdx 0) (.qubitIdx 1)
    (.index 0) (.index 1) rfl rfl

/-- C7: the four no-operand instruction constants are fixed values: each is
definitionally the single instruction of its variant, so any two references
to the same constant denote the same logical instruction, and — being plain
values of an inductive type — none of them can be mutated. -/
theorem singleton_constants (α : Type) :
    WAIT (α := α) = Instruction.wait ∧
    RESET (α := α) = Instruction.reset ∧
    NOP (α := α) = Instruction.nop ∧
    HALT (α := α) = Instruction.halt :=
  ⟨rfl, rfl, rfl, rfl⟩

/-- C10: the four singleton constants carry four distinct instruction
variants, so no two of them compare equal and a consumer can always
distinguish which instruction a value denotes. -/
theorem singletons_pairwise_distinct (α : Type) :
    WAIT (α := α) ≠ RESET ∧ WAIT (α := α) ≠ NOP ∧ WAIT (α := α) ≠ HALT ∧
    RESET (α := α) ≠ NOP ∧ RESET (α := α) ≠ HALT ∧ NOP (α := α) ≠ HALT :=
  ⟨fun h => (nomatch h), fun h => (nomatch h), fun h => (nomatch h),
   fun h => (nomatch h), fun h => (nomatch h), fun h => (nomatch h)⟩

/-! ### Error propagation through sequenced normalizer calls -/

theorem bind1_err {β γ : Type} {u1 : Except NormError β} {g : β → γ}
    {e : NormError} (h : u1 = .error e) :
    (do let a ← u1; return g a) = (Except.error e : Except NormError γ) := by
  rw [h]; rfl

theorem bind2_err1 {β1 β2 γ : Type} {u1 : Except NormError β1}
    {u2 : Except NormError β2} {g : β1 → β2 → γ} {e : NormError}
    (h : u1 = .error e) :
    (do let a ← u1; let b ← u2; return g a b) =
      (Except.error e : Except NormError γ) := by
  rw [h]; rfl

theorem bind2_err2 {β1 β2 γ : Type} {u1 : Except NormError β1}
    {u2 : Except NormError β2} {g : β1 → β2 → γ} {x : β1} {e : NormError}
    (h1 : u1 = .ok x) (h2 : u2 = .error e) :
    (do let a ← u1; let b ← u2; return g a b) =
      (Except.error e : Except NormError γ) := by
  rw [h1, h2]; rfl

theorem bind3_err1 {β1 β2 β3 γ : Type} {u1 : Except NormError β1}
    {u2 : Except NormError β2} {u3 : Except NormError β3}
    {g : β1 → β2 → β3 → γ} {e : NormError} (h : u1 = .error e) :
    (do let a ← u1; let b ← u2; let c ← u3; return g a b c) =
      (Except.error e : Except NormError γ) := by
  rw [h]; rfl

theorem bind3_err2 {β1 β2 β3 γ : Type} {u1 : Except NormError β1}
    {u2 : Except NormError β2} {u3 : Except NormError β3}
    {g : β1 → β2 → β3 → γ} {x : β1} {e : NormError}
    (h1 : u1 = .ok x) (h2 : u2 = .error e) :
    (do let a ← u1; let b ← u2; let c ← u3; return g a b c) =
      (Except.error e : Except NormError γ) := by
  rw [h1, h2]; rfl

theorem bind3_err3 {β1 β2 β3 γ : Type} {u1 : Except NormError β1}
    {u2 : Except NormError β2} {u3 : Except NormError β3}
    {g : β1 → β2 → β3 → γ} {x : β1} {y : β2} {e : NormError}
    (h1 : u1 = .ok x) (h2 : u2 = .ok y) (h3 : u3 = .error e) :
    (do let a ← u1; let b ← u2; let c ← u3; return g a b c) =
      (Except.error e : Except NormError γ) := by
  rw [h1, h2, h3]; rfl

theorem bind1_err_inv {β γ : Type} {u1 : Except NormError β} {g : β → γ}
    {e : NormError}
    (h : (do let a ← u1; return g a) = (Except.error e : Except NormError γ)) :
    u1 = .error e := by
  cases u1 with
  | error e2 =>
    injection (show Except.error (ε := NormError) (α := γ) e2 = .error e
      from h) with he
    subst he
    rfl
  | ok x =>
    exact Except.noConfusion
      (show Except.ok (g x) = Except.error (ε := NormError) e from h)

theorem bind2_err_inv {β1 β2 γ : Type} {u1 : Except NormError β1}
    {u2 : Except NormError β2} {g : β1 → β2 → γ} {e : NormError}
    (h : (do let a ← u1; let b ← u2; return g a b) =
      (Except.error e : Except NormError γ)) :
    u1 = .error e ∨ u2 = .error e := by
  cases u1 with
  | error e2 =>
    injection (show Except.error (ε := NormError) (α := γ) e2 = .error e
      from h) with he
    subst he
    exact Or.inl rfl
  | ok x =>
    cases u2 with
    | error e2 =>
      injection (show Except.error (ε := NormError) (α := γ) e2 = .error e
        from h) with he
      subst he
      exact Or.inr rfl
    | ok y =>
      exact Except.noConfusion
        (show Except.ok (g x y) = Except.error (ε := NormError) e from h)

theorem bind3_err_inv {β1 β2 β3 γ : Type} {u1 : Except NormError β1}
    {u2 : Except NormError β2} {u3 : Except NormError β3}
    {g : β1 → β2 → β3 → γ} {e : NormError}
    (h : (do let a ← u1; let b ← u2; let c ← u3; return g a b c) =
      (Except.error e : Except NormError γ)) :
    u1 = .error e ∨ u2 = .error e ∨ u3 = .error e := by
  cases u1 with
  | error e2 =>
    injection (show Except.error (ε := NormError) (α := γ) e2 = .error e
      from h) with he
    subst he
    exact Or.inl rfl
  | ok x =>
    cases u2 with
    | error e2 =>
      injection (show Except.error (ε := NormError) (α := γ) e2 = .error e
        from h) with he
      subst he
      exact Or.inr (Or.inl rfl)
    | ok y =>
      cases u3 with
      | error e2 =>
        injection (show Except.error (ε := NormError) (α := γ) e2 = .error e
          from h) with he
        subst he
        exact Or.inr (Or.inr rfl)
      | ok z =>
        exact Except.noConfusion
          (show Except.ok (g x y z) = Except.error (ε := NormError) e from h)

/-- A one-operand constructor fails exactly when its normalizer fails, with
the normalizer's error propagated unchanged. -/
def failsLike1 {β : Type} (u : Designator → Except NormError β)
    (C : Designator → Except NormError (Instruction α)) : Prop :=
  ∀ q e, (u q = .error e → C q = .error e) ∧ (C q = .error e → u q = .error e)

/-- A two-operand constructor fails exactly when one of its normalizer calls
fails (the first failing operand wins), with the error propagated
unchanged. -/
def failsLike2 {β : Type} (u : Designator → Except NormError β)
    (C : Designator → Designator → Except NormError (Instruction α)) : Prop :=
  ∀ a b e,
    (u a = .error e → C a b = .error e) ∧
    (∀ x, u a = .ok x → u b = .error e → C a b = .error e) ∧
    (C a b = .error e → u a = .error e ∨ u b = .error e)

/-- A three-operand constructor fails exactly when one of its normalizer
calls fails, with the error propagated unchanged. -/
def failsLike3 {β : Type} (u : Designator → Except NormError β)
    (C : Designator → Designator → Designator →
      Except NormError (Instruction α)) : Prop :=
  ∀ a b c e,
    (u a = .error e → C a b c = .error e) ∧
    (∀ x, u a = .ok x → u b = .error e → C a b c = .error e) ∧
    (∀ x y, u a = .ok x → u b = .ok y → u c = .error e →
      C a b c = .error e) ∧
    (C a b c = .error e →
      u a = .error e ∨ u b = .error e ∨ u c = .error e)

/-- `MEASURE` fails exactly when the qubit normalizer fails or (when a
register is present) the register normalizer fails, the error propagated
unchanged; with the register absent the register normalizer plays no part. -/
def measureFails (α : Type) : Prop :=
  ∀ q r e,
    (unpack_qubit q = .error e →
      MEASURE (α := α) q none = .error e ∧
      MEASURE (α := α) q (some r) = .error e) ∧
    (∀ x, unpack_qubit q = .ok x → unpack_classical_reg r = .error e →
      MEASURE (α := α) q (some r) = .error e) ∧
    (MEASURE (α := α) q none = .error e → unpack_qubit q = .error e) ∧
    (MEASURE (α := α) q (some r) = .error e →
      unpack_qubit q = .error e ∨ unpack_classical_reg r = .error e)

theorem failsLike1_of {β : Type} (u : Designator → Except NormError β)
    (g : β → Instruction α) :
    failsLike1 u (fun q => do let x ← u q; return g x) := by
  intro q e
  exact ⟨fun h => bind1_err h, fun h => bind1_err_inv h⟩

theorem failsLike2_of {β : Type} (u : Designator → Except NormError β)
    (g : β → β → Instruction α) :
    failsLike2 u (fun a b => do let x ← u a; let y ← u b; return g x y) := by
  intro a b e
  exact ⟨fun h => bind2_err1 h, fun x hx h => bind2_err2 hx h,
    fun h => bind2_err_inv h⟩

theorem failsLike3_of {β : Type} (u : Designator → Except NormError β)
    (g : β → β → β → Instruction α) :
    failsLike3 u (fun a b c => do
      let x ← u a; let y ← u b; let z ← u c; return g x y z) := by
  intro a b c e
  exact ⟨fun h => bind3_err1 h, fun x hx h => bind3_err2 hx h,
    fun x y hx hy h => bind3_err3 hx hy h, fun h => bind3_err_inv h⟩

/-- C6: every constructor of the module fails exactly when one of its
normalizer calls fails, propagating the normalizer's error value unchanged,
and the only error kind that exists is `InvalidOperand` (the first
conjunct: `NormError` has no other inhabitant). -/
theorem error_propagation (α : Type) (v : α) :
    (∀ e : NormError, e = NormError.InvalidOperand) ∧
    failsLike1 unpack_qubit (I (α := α)) ∧
    failsLike1 unpack_qubit (X (α := α)) ∧
    failsLike1 unpack_qubit (Y (α := α)) ∧
    failsLike1 unpack_qubit (Z (α := α)) ∧
    failsLike1 unpack_qubit (H (α := α)) ∧
    failsLike1 unpack_qubit (S (α := α)) ∧
    failsLike1 unpack_qubit (T (α := α)) ∧
    failsLike1 unpack_qubit (RX v) ∧
    failsLike1 unpack_qubit (RY v) ∧
    failsLike1 unpack_qubit (RZ v) ∧
    failsLike1 unpack_qubit (PHASE v) ∧
    failsLike2 unpack_qubit (CZ (α := α)) ∧
    failsLike2 unpack_qubit (CNOT (α := α)) ∧
    failsLike3 unpack_qubit (CCNOT (α := α)) ∧
    failsLike2 unpack_qubit (CPHASE00 v) ∧
    failsLike2 unpack_qubit (CPHASE01 v) ∧
    failsLike2 unpack_qubit (CPHASE10 v) ∧
    failsLike2 unpack_qubit (CPHASE v) ∧
    failsLike2 unpack_qubit (SWAP (α := α)) ∧
    failsLike3 unpack_qubit (CSWAP (α := α)) ∧
    failsLike2 unpack_qubit (ISWAP (α := α)) ∧
    failsLike2 unpack_qubit (PSWAP v) ∧
    failsLike1 unpack_classical_reg (TRUE (α := α)) ∧
    failsLike1 unpack_classical_reg (FALSE (α := α)) ∧
    failsLike1 unpack_classical_reg (NOT (α := α)) ∧
    failsLike2 unpack_classical_reg (AND (α := α)) ∧
    failsLike2 unpack_classical_reg (OR (α := α)) ∧
    failsLike2 unpack_classical_reg (MOVE (α := α)) ∧
    failsLike2 unpack_classical_reg (EXCHANGE (α := α)) ∧
    measureFails α := by
  refine ⟨fun e => by cases e; rfl,
    failsLike1_of unpack_qubit (fun x => .gate ⟨"I", [], [x]⟩),
    failsLike1_of unpack_qubit (fun x => .gate ⟨"X", [], [x]⟩),
    failsLike1_of unpack_qubit (fun x => .gate ⟨"Y", [], [x]⟩),
    failsLike1_of unpack_qubit (fun x => .gate ⟨"Z", [], [x]⟩),
    failsLike1_of unpack_qubit (fun x => .gate ⟨"H", [], [x]⟩),
    failsLike1_of unpack_qubit (fun x => .gate ⟨"S", [], [x]⟩),
    failsLike1_of unpack_qubit (fun x => .gate ⟨"T", [], [x]⟩),
    failsLike1_of unpack_qubit (fun x => .gate ⟨"RX", [v], [x]⟩),
    failsLike1_of unpack_qubit (fun x => .gate ⟨"RY", [v], [x]⟩),
    failsLike1_of unpack_qubit (fun x => .gate ⟨"RZ", [v], [x]⟩),
    failsLike1_of unpack_qubit (fun x => .gate ⟨"PHASE", [v], [x]⟩),
    failsLike2_of unpack_qubit (fun x y => .gate ⟨"CZ", [], [x, y]⟩),
    failsLike2_of unpack_qubit (fun x y => .gate ⟨"CNOT", [], [x, y]⟩),
    failsLike3_of unpack_qubit (fun x y z => .gate ⟨"CCNOT", [], [x, y, z]⟩),
    failsLike2_of unpack_qubit (fun x y => .gate ⟨"CPHASE00", [v], [x, y]⟩),
    failsLike2_of unpack_qubit (fun x y => .gate ⟨"CPHASE01", [v], [x, y]⟩),
    failsLike2_of unpack_qubit (fun x y => .gate ⟨"CPHASE10", [v], [x, y]⟩),
    failsLike2_of unpack_qubit (fun x y => .gate ⟨"CPHASE", [v], [x, y]⟩),
    failsLike2_of unpack_qubit (fun x y => .gate ⟨"SWAP", [], [x, y]⟩),
    failsLike3_of unpack_qubit (fun x y z => .gate ⟨"CSWAP", [], [x, y, z]⟩),
    failsLike2_of unpack_qubit (fun x y => .gate ⟨"ISWAP", [], [x, y]⟩),
    failsLike2_of unpack_qubit (fun x y => .gate ⟨"PSWAP", [v], [x, y]⟩),
    failsLike1_of unpack_classical_reg (fun r => .classicalTrue r),
    failsLike1_of unpack_classical_reg (fun r => .classicalFalse r),
    failsLike1_of unpack_classical_reg (fun r => .classicalNot r),
    failsLike2_of unpack_classical_reg (fun x y => .classicalAnd x y),
    failsLike2_of unpack_classical_reg (fun x y => .classicalOr x y),
    failsLike2_of unpack_classical_reg (fun x y => .classicalMove x y),
    failsLike2_of unpack_classical_reg (fun x y => .classicalExchange x y),
    ?_⟩
  intro q r e
  refine ⟨fun h => ⟨?_, ?_⟩, fun x hx h => ?_, fun h => ?_, fun h => ?_⟩
  · unfold MEASURE; exact bind1_err h
  · unfold MEASURE; exact bind2_err1 h
  · unfold MEASURE; exact bind2_err2 hx h
  · unfold MEASURE at h; exact bind1_err_inv h
  · unfold MEASURE at h; exact bind2_err_inv h

/-- C8: every constructor is a deterministic function of its arguments:
two calls with equal arguments produce equal results (equal instruction
values, or the same failure).  The constructors are pure functions of the
embedding, so a call cannot mutate its arguments, the singleton constants or
`STANDARD_GATES`. -/
theorem constructors_deterministic {α : Type} (v w : α)
    (q1 q2 q3 p1 p2 p3 a1 a2 b1 b2 : Designator)
    (oc1 oc2 : Option Designator)
    (hv : v = w) (hq1 : q1 = p1) (hq2 : q2 = p2) (hq3 : q3 = p3)
    (hA : a1 = b1) (hB : a2 = b2) (ho : oc1 = oc2) :
    I (α := α) q1 = I p1 ∧
    X (α := α) q1 = X p1 ∧
    Y (α := α) q1 = Y p1 ∧
    Z (α := α) q1 = Z p1 ∧
    H (α := α) q1 = H p1 ∧
    S (α := α) q1 = S p1 ∧
    T (α := α) q1 = T p1 ∧
    RX v q1 = RX w p1 ∧
    RY v q1 = RY w p1 ∧
    RZ v q1 = RZ w p1 ∧
    PHASE v q1 = PHASE w p1 ∧
    CZ (α := α) q1 q2 = CZ p1 p2 ∧
    CNOT (α := α) q1 q2 = CNOT p1 p2 ∧
    CCNOT (α := α) q1 q2 q3 = CCNOT p1 p2 p3 ∧
    CPHASE00 v q1 q2 = CPHASE00 w p1 p2 ∧
    CPHASE01 v q1 q2 = CPHASE01 w p1 p2 ∧
    CPHASE10 v q1 q2 = CPHASE10 w p1 p2 ∧
    CPHASE v q1 q2 = CPHASE w p1 p2 ∧
    SWAP (α := α) q1 q2 = SWAP p1 p2 ∧
    CSWAP (α := α) q1 q2 q3 = CSWAP p1 p2 p3 ∧
    ISWAP (α := α) q1 q2 = ISWAP p1 p2 ∧
    PSWAP v q1 q2 = PSWAP w p1 p2 ∧
    MEASURE (α := α) q1 oc1 = MEASURE p1 oc2 ∧
    TRUE (α := α) a1 = TRUE b1 ∧
    FALSE (α := α) a1 = FALSE b1 ∧
    NOT (α := α) a1 = NOT b1 ∧
    AND (α := α) a1 a2 = AND b1 b2 ∧
    OR (α := α) a1 a2 = OR b1 b2 ∧
    MOVE (α := α) a1 a2 = MOVE b1 b2 ∧
    EXCHANGE (α := α) a1 a2 = EXCHANGE b1 b2 := by
  subst hv hq1 hq2 hq3 hA hB ho
  exact ⟨rfl, rfl, rfl, rfl, rfl, rfl, rfl, rfl, rfl, rfl, rfl, rfl, rfl,
    rfl, rfl, rfl, rfl, rfl, rfl, rfl, rfl, rfl, rfl, rfl, rfl, rfl, rfl,
    rfl, rfl, rfl⟩

/-- Witness for C8 at concrete equal argument pairs. -/
theorem constructors_deterministic_witness :
    I (α := Int) (.qubitIdx 0) = I (.qubitIdx 0) ∧
    X (α := Int) (.qubitIdx 0) = X (.qubitIdx 0) ∧
    Y (α := Int) (.qubitIdx 0) = Y (.qubitIdx 0) ∧
    Z (α := Int) (.qubitIdx 0) = Z (.qubitIdx 0) ∧
    H (α := Int) (.qubitIdx 0) = H (.qubitIdx 0) ∧
    S (α := Int) (.qubitIdx 0) = S (.qubitIdx 0) ∧
    T (α := Int) (.qubitIdx 0) = T (.qubitIdx 0) ∧
    RX (2 : Int) (.qubitIdx 0) = RX 2 (.qubitIdx 0) ∧
    RY (2 : Int) (.qubitIdx 0) = RY 2 (.qubitIdx 0) ∧
    RZ (2 : Int) (.qubitIdx 0) = RZ 2 (.qubitIdx 0) ∧
    PHASE (2 : Int) (.qubitIdx 0) = PHASE 2 (.qubitIdx 0) ∧
    CZ (α := Int) (.qubitIdx 0) (.qubitIdx 1) = CZ (.qubitIdx 0) (.qubitIdx 1) ∧
    CNOT (α := Int) (.qubitIdx 0) (.qubitIdx 1) =
      CNOT (.qubitIdx 0) (.qubitIdx 1) ∧
    CCNOT (α := Int) (.qubitIdx 0) (.qubitIdx 1) (.qubitIdx 2) =
      CCNOT (.qubitIdx 0) (.qubitIdx 1) (.qubitIdx 2) ∧
    CPHASE00 (2 : Int) (.qubitIdx 0) (.qubitIdx 1) =
      CPHASE00 2 (.qubitIdx 0) (.qubitIdx 1) ∧
    CPHASE01 (2 : Int) (.qubitIdx 0) (.qubitIdx 1) =
      CPHASE01 2 (.qubitIdx 0) (.qubitIdx 1) ∧
    CPHASE10 (2 : Int) (.qubitIdx 0) (.qubitIdx 1) =
      CPHASE10 2 (.qubitIdx 0) (.qubitIdx 1) ∧
    CPHASE (2 : Int) (.qubitIdx 0) (.qubitIdx 1) =
      CPHASE 2 (.qubitIdx 0) (.qubitIdx 1) ∧
    SWAP (α := Int) (.qubitIdx 0) (.qubitIdx 1) =
      SWAP (.qubitIdx 0) (.qubitIdx 1) ∧
    CSWAP (α := Int) (.qubitIdx 0) (.qubitIdx 1) (.qubitIdx 2) =
      CSWAP (.qubitIdx 0) (.qubitIdx 1) (.qubitIdx 2) ∧
    ISWAP (α := Int) (.qubitIdx 0) (.qubitIdx 1) =
      ISWAP (.qubitIdx 0) (.qubitIdx 1) ∧
    PSWAP (2 : Int) (.qubitIdx 0) (.qubitIdx 1) =
      PSWAP 2 (.qubitIdx 0) (.qubitIdx 1) ∧
    MEASURE (α := Int) (.qubitIdx 0) (some (.regIdx 3)) =
      MEASURE (.qubitIdx 0) (some (.regIdx 3)) ∧
    TRUE (α := Int) (.regIdx 3) = TRUE (.regIdx 3) ∧
    FALSE (α := Int) (.regIdx 3) = FALSE (.regIdx 3) ∧
    NOT (α := Int) (.regIdx 3) = NOT (.regIdx 3) ∧
    AND (α := Int) (.regIdx 3) (.regIdx 4) = AND (.regIdx 3) (.regIdx 4) ∧
    OR (α := Int) (.regIdx 3) (.regIdx 4) = OR (.regIdx 3) (.regIdx 4) ∧
    MOVE (α := Int) (.regIdx 3) (.regIdx 4) = MOVE (.regIdx 3) (.regIdx 4) ∧
    EXCHANGE (α := Int) (.regIdx 3) (.regIdx 4) =
      EXCHANGE (.regIdx 3) (.regIdx 4) :=
  constructors_deterministic (2 : Int) 2 (.qubitIdx 0) (.qubitIdx 1)
    (.qubitIdx 2) (.qubitIdx 0) (.qubitIdx 1) (.qubitIdx 2)
    (.regIdx 3) (.regIdx 4) (.regIdx 3) (.regIdx 4)
    (some (.regIdx 3)) (some (.regIdx 3)) rfl rfl rfl rfl rfl rfl rfl

/-- C9: no constructor rejects repeated (aliased) operands: any accepted
designator may fill every operand position of a multi-operand constructor,
each position holding its normalized form. -/
theorem aliased_operands {α : Type} (v : α) (q c : Designator)
    (r : QubitRef) (cr : RegRef)
    (hq : unpack_qubit q = .ok r) (hc : unpack_classical_reg c = .ok cr) :
    CZ (α := α) q q = .ok (.gate ⟨"CZ", [], [r, r]⟩) ∧
    CNOT (α := α) q q = .ok (.gate ⟨"CNOT", [], [r, r]⟩) ∧
    CCNOT (α := α) q q q = .ok (.gate ⟨"CCNOT", [], [r, r, r]⟩) ∧
    CPHASE00 v q q = .ok (.gate ⟨"CPHASE00", [v], [r, r]⟩) ∧
    CPHASE01 v q q = .ok (.gate ⟨"CPHASE01", [v], [r, r]⟩) ∧
    CPHASE10 v q q = .ok (.gate ⟨"CPHASE10", [v], [r, r]⟩) ∧
    CPHASE v q q = .ok (.gate ⟨"CPHASE", [v], [r, r]⟩) ∧
    SWAP (α := α) q q = .ok (.gate ⟨"SWAP", [], [r, r]⟩) ∧
    CSWAP (α := α) q q q = .ok (.gate ⟨"CSWAP", [], [r, r, r]⟩) ∧
    ISWAP (α := α) q q = .ok (.gate ⟨"ISWAP", [], [r, r]⟩) ∧
    PSWAP v q q = .ok (.gate ⟨"PSWAP", [v], [r, r]⟩) ∧
    AND (α := α) c c = .ok (.classicalAnd cr cr) ∧
    OR (α := α) c c = .ok (.classicalOr cr cr) ∧
    MOVE (α := α) c c = .ok (.classicalMove cr cr) ∧
    EXCHANGE (α := α) c c = .ok (.classicalExchange cr cr) :=
  ⟨by unfold CZ; exact bind2_ok hq hq,
   by unfold CNOT; exact bind2_ok hq hq,
   by unfold CCNOT; exact bind3_ok hq hq hq,
   by unfold CPHASE00; exact bind2_ok hq hq,
   by unfold CPHASE01; exact bind2_ok hq hq,
   by unfold CPHASE10; exact bind2_ok hq hq,
   by unfold CPHASE; exact bind2_ok hq hq,
   by unfold SWAP; exact bind2_ok hq hq,
   by unfold CSWAP; exact bind3_ok hq hq hq,
   by unfold ISWAP; exact bind2_ok hq hq,
   by unfold PSWAP; exact bind2_ok hq hq,
   by unfold AND; exact bind2_ok hc hc,
   by unfold OR; exact bind2_ok hc hc,
   by unfold MOVE; exact bind2_ok hc hc,
   by unfold EXCHANGE; exact bind2_ok hc hc⟩

/-- Witness for C9 at qubit index 5 and register index 6. -/
theorem aliased_operands_witness :
    CZ (α := Int) (.qubitIdx 5) (.qubitIdx 5) =
      .ok (.gate ⟨"CZ", [], [.index 5, .index 5]⟩) ∧
    CNOT (α := Int) (.qubitIdx 5) (.qubitIdx 5) =
      .ok (.gate ⟨"CNOT", [], [.index 5, .index 5]⟩) ∧
    CCNOT (α := Int) (.qubitIdx 5) (.qubitIdx 5) (.qubitIdx 5) =
      .ok (.gate ⟨"CCNOT", [], [.index 5, .index 5, .index 5]⟩) ∧
    CPHASE00 (4 : Int) (.qubitIdx 5) (.qubitIdx 5) =
      .ok (.gate ⟨"CPHASE00", [4], [.index 5, .index 5]⟩) ∧
    CPHASE01 (4 : Int) (.qubitIdx 5) (.qubitIdx 5) =
      .ok (.gate ⟨"CPHASE01", [4], [.index 5, .index 5]⟩) ∧
    CPHASE10 (4 : Int) (.qubitIdx 5) (.qubitIdx 5) =
      .ok (.gate ⟨"CPHASE10", [4], [.index 5, .index 5]⟩) ∧
    CPHASE (4 : Int) (.qubitIdx 5) (.qubitIdx 5) =
      .ok (.gate ⟨"CPHASE", [4], [.index 5, .index 5]⟩) ∧
    SWAP (α := Int) (.qubitIdx 5) (.qubitIdx 5) =
      .ok (.gate ⟨"SWAP", [], [.index 5, .index 5]⟩) ∧
    CSWAP (α := Int) (.qubitIdx 5) (.qubitIdx 5) (.qubitIdx 5) =
      .ok (.gate ⟨"CSWAP", [], [.index 5, .index 5, .index 5]⟩) ∧
    ISWAP (α := Int) (.qubitIdx 5) (.qubitIdx 5) =
      .ok (.gate ⟨"ISWAP", [], [.index 5, .index 5]⟩) ∧
    PSWAP (4 : Int) (.qubitIdx 5) (.qubitIdx 5) =
      .ok (.gate ⟨"PSWAP", [4], [.index 5, .index 5]⟩) ∧
    AND (α := Int) (.regIdx 6) (.regIdx 6) =
      .ok (.classicalAnd (.index 6) (.index 6)) ∧
    OR (α := Int) (.regIdx 6) (.regIdx 6) =
      .ok (.classicalOr (.index 6) (.index 6)) ∧
    MOVE (α := Int) (.regIdx 6) (.regIdx 6) =
      .ok (.classicalMove (.index 6) (.index 6)) ∧
    EXCHANGE (α := Int) (.regIdx 6) (.regIdx 6) =
      .ok (.classicalExchange (.index 6) (.index 6)) :=
  aliased_operands (4 : Int) (.qubitIdx 5) (.regIdx 6) (.index 5) (.index 6)
    rfl rfl

end PyquilGates
